import Mathlib

/-!
Verification of the Prerequisite Validation & Schedule Balancing Engine of the
W&M Business Major-Advising dashboard.

The schedule scorer and the schedule-builder operations are embedded from the
`ScheduleBuilder` component (`calculateScheduleScore`, `addCourse`,
`removeCourse`).  Course difficulty indices are modelled as rationals, the
running score as an integer (all penalties are integral), course sets as lists
in selection order.  JavaScript's `sum / length || 0` idiom for the mean over a
possibly-empty list is embedded as an explicit empty-list test (for a
non-empty list of non-negative summands the `|| 0` guard is the identity, and
on the empty list it turns `NaN` into `0`).
-/

/-- A course as consumed by the schedule engine: the fields of the
front-end `Course` interface that the scorer and the builder read
(display-only fields such as the title are omitted). -/
structure Course where
  code : String
  credits : Nat
  dept : String
  hasLab : Bool
  difficultyIndex : ℚ
  status : Option String := none
deriving Repr, DecidableEq

/-- The `ScheduleScore` result record. -/
structure ScheduleScore where
  score : ℤ
  rationale : String
  suggestedSwaps : List String
  warnings : List String
deriving Repr, DecidableEq

/-- `selectedCourses.reduce((sum, c) => sum + c.credits, 0)`. -/
def totalCredits (cs : List Course) : Nat :=
  cs.foldl (fun s c => s + c.credits) 0

/-- Sum of difficulty indices, `reduce((sum, c) => sum + c.difficultyIndex, 0)`. -/
def difficultySum (cs : List Course) : ℚ :=
  cs.foldl (fun s c => s + c.difficultyIndex) 0

/-- `... / selectedCourses.length || 0`: the mean difficulty, with the
empty set mapped to `0` (the `|| 0` guard on `NaN`). -/
def avgDifficulty (cs : List Course) : ℚ :=
  if cs.length = 0 then 0 else difficultySum cs / (cs.length : ℚ)

/-- `selectedCourses.filter(c => c.hasLab).length`. -/
def labCount (cs : List Course) : Nat :=
  (cs.filter (fun c => c.hasLab)).length

/-- `selectedCourses.filter(c => c.dept === 'MATH' || c.dept === 'STAT').length`. -/
def quantCount (cs : List Course) : Nat :=
  (cs.filter (fun c => c.dept == "MATH" || c.dept == "STAT")).length

/-- Warning text pushed when `totalCredits > 18`. -/
def creditOverloadWarning : String :=
  "Credit overload: Consider reducing to 15-18 credits"

/-- Warning text pushed when `totalCredits > 15` (and not `> 18`). -/
def highCreditWarning : String :=
  "High credit load: Monitor workload carefully"

/-- Warning text pushed when `labCount > 2`. -/
def labWarning : String :=
  "Too many lab courses: Consider moving one to next semester"

/-- Warning text pushed when `quantCourses > 2`. -/
def quantWarning : String :=
  "Heavy quant load: Balance with non-quantitative courses"

/-- Warning text pushed when `avgDifficulty > 0.7`. -/
def difficultyWarning : String :=
  "Very challenging schedule: Consider balancing difficulty"

/-- The `// Credit overload` block: mutates the running `(score, warnings)`
state exactly as the source's two-armed `if` chain does. -/
def applyCreditRule (tc : Nat) (s : ℤ × List String) : ℤ × List String :=
  if tc > 18 then (s.1 - 20, s.2 ++ [creditOverloadWarning])
  else if tc > 15 then (s.1 - 5, s.2 ++ [highCreditWarning])
  else s

/-- The `// Too many labs` block. -/
def applyLabRule (lc : Nat) (s : ℤ × List String) : ℤ × List String :=
  if lc > 2 then (s.1 - 15, s.2 ++ [labWarning]) else s

/-- The `// Too many quant courses` block. -/
def applyQuantRule (qc : Nat) (s : ℤ × List String) : ℤ × List String :=
  if qc > 2 then (s.1 - 15, s.2 ++ [quantWarning]) else s

/-- The `// High average difficulty` block: `-20` above `0.7`, else `-10`
above `0.6` (the second arm pushes no warning in the source). -/
def applyDifficultyRule (ad : ℚ) (s : ℤ × List String) : ℤ × List String :=
  if ad > 7/10 then (s.1 - 20, s.2 ++ [difficultyWarning])
  else if ad > 6/10 then (s.1 - 10, s.2)
  else s

/-- The `// Suggestions` block: when the mean difficulty exceeds `0.7`,
filter the available courses for difficulty `< 0.5` not already selected and
suggest the first such candidate; otherwise (or when none exists) suggest
nothing. -/
def suggestionsFor (availableCourses selectedCourses : List Course) (ad : ℚ) :
    List String :=
  if ad > 7/10 then
    match availableCourses.filter
        (fun c => decide (c.difficultyIndex < 1/2)
          && !(selectedCourses.any (fun sc => sc.code == c.code))) with
    | [] => []
    | e :: _ => ["Consider replacing a difficult course with " ++ e.code]
  else []

/-- `calculateScheduleScore` from the ScheduleBuilder component: aggregate
metrics, the four penalty blocks in source order, the suggestion block,
clamping to `[0, 100]`, and the three-tier rationale string. -/
def calculateScheduleScore (availableCourses selectedCourses : List Course) :
    ScheduleScore :=
  let tc := totalCredits selectedCourses
  let ad := avgDifficulty selectedCourses
  let st :=
    applyDifficultyRule ad
      (applyQuantRule (quantCount selectedCourses)
        (applyLabRule (labCount selectedCourses)
          (applyCreditRule tc (100, []))))
  let swaps := suggestionsFor availableCourses selectedCourses ad
  let finalScore := max 0 (min 100 st.1)
  { score := finalScore
    rationale :=
      if finalScore ≥ 80 then "Well-balanced schedule"
      else if finalScore ≥ 60 then "Moderately challenging schedule"
      else "Consider adjusting for better balance"
    suggestedSwaps := swaps
    warnings := st.2 }

/-- `addCourse`: append the course (with status `planned`) unless a course
with the same code is already selected. -/
def addCourse (selectedCourses : List Course) (course : Course) : List Course :=
  if selectedCourses.any (fun c => c.code == course.code) then selectedCourses
  else selectedCourses ++ [{ course with status := some "planned" }]

/-- `removeCourse`: keep exactly the selected courses whose code differs
from the given code. -/
def removeCourse (selectedCourses : List Course) (courseCode : String) :
    List Course :=
  selectedCourses.filter (fun c => !(c.code == courseCode))

/-- The schedule-builder invariant: no two selected courses share a code. -/
def uniqueCodes (cs : List Course) : Prop :=
  (cs.map Course.code).Nodup

instance (cs : List Course) : Decidable (uniqueCodes cs) := by
  unfold uniqueCodes; infer_instance

/-- Modelled from the spec: the prerequisite-expression tree of §3 (the
resolver component is not present in the front-end sources; only its design
documents and back-end API references are). Node kinds: course reference
with optional minimum grade, conjunction, disjunction, permission override,
class standing. -/
inductive PrereqExpr where
  | courseRef (code : String) (minGrade : Option String)
  | allOf (children : List PrereqExpr)
  | anyOf (children : List PrereqExpr)
  | permissionOverride
  | classStanding (minCredits : Nat)
deriving Repr

mutual

/-- Modelled from the spec: the `CourseRef` edges of an expression, in
pre-order. -/
def courseRefs : PrereqExpr → List String
  | .courseRef c _ => [c]
  | .allOf children => courseRefsList children
  | .anyOf children => courseRefsList children
  | .permissionOverride => []
  | .classStanding _ => []

/-- Pre-order `CourseRef` edges of a list of sub-expressions. -/
def courseRefsList : List PrereqExpr → List String
  | [] => []
  | e :: es => courseRefs e ++ courseRefsList es

end

/-- Modelled from the spec: the data-integrity error raised on a cycle in
the prerequisite graph, identifying the repeated course code. -/
inductive ChainError where
  | malformedPrerequisiteGraph (repeated : String)
deriving Repr, DecidableEq

/-- A catalog maps course codes to prerequisite expressions. -/
def Catalog := List (String × PrereqExpr)

/-- Modelled from the spec: the depth-first walk behind `transitive_chain`.
`path` is the active DFS path (cycle detection), `acc` the chain emitted so
far in first-seen pre-order, `codes` the worklist of `CourseRef` edges still
to visit at this level.  A code on the active path is a cycle and raises
`malformedPrerequisiteGraph` with that code; a code already emitted is
skipped (each course is returned at most once); a code absent from the
catalog contributes nothing to the chain.  The walk is fuelled; fuel
exhaustion (impossible for catalogs explored within `chainFuel` steps) is
also reported as a malformed graph rather than a silent truncation. -/
def visitCodes (catalog : Catalog) :
    Nat → List String → List String → List String →
    Except ChainError (List String)
  | _, _, acc, [] => .ok acc
  | 0, _, _, _ :: _ => .error (.malformedPrerequisiteGraph "")
  | fuel + 1, path, acc, code :: rest =>
    if code ∈ path then .error (.malformedPrerequisiteGraph code)
    else if code ∈ acc then visitCodes catalog fuel path acc rest
    else
      match List.lookup code catalog with
      | none => visitCodes catalog fuel path acc rest
      | some expr =>
        match visitCodes catalog fuel (code :: path) (acc ++ [code])
            (courseRefs expr) with
        | .error e => .error e
        | .ok acc2 => visitCodes catalog fuel path acc2 rest

/-- Fuel bound: one unit per `CourseRef` occurrence in the catalog plus one
per catalog entry plus one, ample for any walk that terminates. -/
def chainFuel (catalog : Catalog) : Nat :=
  catalog.foldl (fun a p => a + (courseRefs p.2).length) 0 +
    catalog.length + 1

/-- Modelled from the spec: `transitive_chain(course, catalog)` — the
reachable prerequisite courses of a course, each at most once, in first-seen
pre-order, failing with `MalformedPrerequisiteGraph` on a cycle.  Courses
are identified by their codes (the catalog key). -/
def transitive_chain (courseCode : String) (catalog : Catalog) :
    Except ChainError (List String) :=
  match List.lookup courseCode catalog with
  | none => .ok []
  | some expr =>
    visitCodes catalog (chainFuel catalog) [courseCode] [] (courseRefs expr)

/-- Spec-side restatement of the credit rule, for refinement comparison:
deduct 20 above 18 credits, 5 above 15, otherwise nothing. -/
def specCreditPenalty (tc : Nat) : ℤ :=
  if tc > 18 then 20 else if tc > 15 then 5 else 0

/-- Spec-side restatement of the lab rule: deduct 15 above 2 lab courses. -/
def specLabPenalty (lc : Nat) : ℤ :=
  if lc > 2 then 15 else 0

/-- Spec-side restatement of the quantitative-department rule: deduct 15
above 2 MATH/STAT courses. -/
def specQuantPenalty (qc : Nat) : ℤ :=
  if qc > 2 then 15 else 0

/-- Spec-side restatement of the difficulty rule: deduct 20 above mean
difficulty 0.7, else 10 above 0.6. -/
def specDifficultyPenalty (ad : ℚ) : ℤ :=
  if ad > 7/10 then 20 else if ad > 6/10 then 10 else 0

/-- The warnings contributed by the credit rule. -/
def creditWarnings (tc : Nat) : List String :=
  if tc > 18 then [creditOverloadWarning]
  else if tc > 15 then [highCreditWarning] else []

/-- The warnings contributed by the lab rule. -/
def labWarnings (lc : Nat) : List String :=
  if lc > 2 then [labWarning] else []

/-- The warnings contributed by the quantitative-department rule. -/
def quantWarnings (qc : Nat) : List String :=
  if qc > 2 then [quantWarning] else []

/-- The warnings contributed by the difficulty rule. -/
def diffWarnings (ad : ℚ) : List String :=
  if ad > 7/10 then [difficultyWarning] else []

/-- Course constructor for sample data. -/
def mkCourse (code : String) (cr : Nat) (dept : String) (lab : Bool)
    (d : ℚ) : Course :=
  { code := code, credits := cr, dept := dept, hasLab := lab,
    difficultyIndex := d }

/-- Five BUAD courses totalling 21 credits, each of difficulty 0.75, no
labs, no quantitative departments. -/
def overloadSchedule : List Course :=
  [mkCourse "BUAD 301" 5 "BUAD" false (3/4),
   mkCourse "BUAD 302" 4 "BUAD" false (3/4),
   mkCourse "BUAD 303" 4 "BUAD" false (3/4),
   mkCourse "BUAD 304" 4 "BUAD" false (3/4),
   mkCourse "BUAD 305" 4 "BUAD" false (3/4)]

/-- A single three-credit course of difficulty 0: a sub-12-credit
(non-full-time) schedule. -/
def partTimeSchedule : List Course :=
  [mkCourse "BUAD 101" 3 "BUAD" false 0]

/-- A single hard course, mean difficulty 0.8. -/
def hardSchedule : List Course :=
  [mkCourse "BUAD 401" 3 "BUAD" false (4/5)]

/-- Selected pair in which "HARD 400" is the hardest course. -/
def swapScheduleA : List Course :=
  [mkCourse "HARD 400" 3 "BUAD" false (9/10),
   mkCourse "MED 300" 3 "BUAD" false (4/5)]

/-- Same codes as `swapScheduleA` with the difficulties exchanged, so that
"MED 300" is the hardest course. -/
def swapScheduleB : List Course :=
  [mkCourse "HARD 400" 3 "BUAD" false (4/5),
   mkCourse "MED 300" 3 "BUAD" false (9/10)]

/-- Available-but-unselected candidates, one of difficulty below 0.5. -/
def swapAvailable : List Course :=
  [mkCourse "EASY 101" 3 "BUAD" false (3/10)]

/-- Six three-credit courses of difficulty 0.5: 18 credits total. -/
def eighteenCreditSchedule : List Course :=
  [mkCourse "BUAD 311" 3 "BUAD" false (1/2),
   mkCourse "BUAD 312" 3 "BUAD" false (1/2),
   mkCourse "BUAD 313" 3 "BUAD" false (1/2),
   mkCourse "BUAD 314" 3 "BUAD" false (1/2),
   mkCourse "BUAD 315" 3 "BUAD" false (1/2),
   mkCourse "BUAD 316" 3 "BUAD" false (1/2)]

/-- As `eighteenCreditSchedule` with one course at four credits: 19 credits
total, same lab count, quantitative count and mean difficulty. -/
def nineteenCreditSchedule : List Course :=
  [mkCourse "BUAD 311" 4 "BUAD" false (1/2),
   mkCourse "BUAD 312" 3 "BUAD" false (1/2),
   mkCourse "BUAD 313" 3 "BUAD" false (1/2),
   mkCourse "BUAD 314" 3 "BUAD" false (1/2),
   mkCourse "BUAD 315" 3 "BUAD" false (1/2),
   mkCourse "BUAD 316" 3 "BUAD" false (1/2)]

/-- A catalog in which course A requires B and B requires A. -/
def cycleCatalog : Catalog :=
  [("A", .courseRef "B" none), ("B", .courseRef "A" none)]

/-- An acyclic catalog: A requires B and C, B requires C. -/
def okCatalog : Catalog :=
  [("A", .allOf [.courseRef "B" none, .courseRef "C" none]),
   ("B", .courseRef "C" none),
   ("C", .permissionOverride)]

/-- Sample courses for the schedule-builder invariant. -/
def sampleCourseA : Course := mkCourse "BUAD 203" 3 "BUAD" false (1/2)

/-- A second sample course with a distinct code. -/
def sampleCourseB : Course := mkCourse "MATH 211" 4 "MATH" false (7/10)

/-- A course sharing `sampleCourseA`'s code. -/
def sampleCourseADup : Course := mkCourse "BUAD 203" 1 "BUAD" true (9/10)

/-! ## Closed forms for the scorer -/

theorem applyCreditRule_eq (tc : Nat) (s : ℤ × List String) :
    applyCreditRule tc s =
      (s.1 - specCreditPenalty tc, s.2 ++ creditWarnings tc) := by
  unfold applyCreditRule specCreditPenalty creditWarnings
  split_ifs <;> simp

theorem applyLabRule_eq (lc : Nat) (s : ℤ × List String) :
    applyLabRule lc s = (s.1 - specLabPenalty lc, s.2 ++ labWarnings lc) := by
  unfold applyLabRule specLabPenalty labWarnings
  split_ifs <;> simp

theorem applyQuantRule_eq (qc : Nat) (s : ℤ × List String) :
    applyQuantRule qc s =
      (s.1 - specQuantPenalty qc, s.2 ++ quantWarnings qc) := by
  unfold applyQuantRule specQuantPenalty quantWarnings
  split_ifs <;> simp

theorem applyDifficultyRule_eq (ad : ℚ) (s : ℤ × List String) :
    applyDifficultyRule ad s =
      (s.1 - specDifficultyPenalty ad, s.2 ++ diffWarnings ad) := by
  unfold applyDifficultyRule specDifficultyPenalty diffWarnings
  split_ifs <;> simp

theorem specCreditPenalty_range (tc : Nat) :
    0 ≤ specCreditPenalty tc ∧ specCreditPenalty tc ≤ 20 := by
  unfold specCreditPenalty; split_ifs <;> omega

theorem specLabPenalty_range (lc : Nat) :
    0 ≤ specLabPenalty lc ∧ specLabPenalty lc ≤ 15 := by
  unfold specLabPenalty; split_ifs <;> omega

theorem specQuantPenalty_range (qc : Nat) :
    0 ≤ specQuantPenalty qc ∧ specQuantPenalty qc ≤ 15 := by
  unfold specQuantPenalty; split_ifs <;> omega

theorem specDifficultyPenalty_range (ad : ℚ) :
    0 ≤ specDifficultyPenalty ad ∧ specDifficultyPenalty ad ≤ 20 := by
  unfold specDifficultyPenalty; split_ifs <;> omega

/-- The clamp to `[0, 100]` is inactive (the penalties total at most 70),
so the final score is the plain difference of 100 and the four penalties. -/
theorem scheduleScore_score_eq (avail sel : List Course) :
    (calculateScheduleScore avail sel).score =
      100 - specCreditPenalty (totalCredits sel)
        - specLabPenalty (labCount sel)
        - specQuantPenalty (quantCount sel)
        - specDifficultyPenalty (avgDifficulty sel) := by
  obtain ⟨h1, h2⟩ := specCreditPenalty_range (totalCredits sel)
  obtain ⟨h3, h4⟩ := specLabPenalty_range (labCount sel)
  obtain ⟨h5, h6⟩ := specQuantPenalty_range (quantCount sel)
  obtain ⟨h7, h8⟩ := specDifficultyPenalty_range (avgDifficulty sel)
  unfold calculateScheduleScore
  simp only [applyCreditRule_eq, applyLabRule_eq, applyQuantRule_eq,
    applyDifficultyRule_eq]
  omega

theorem scheduleScore_warnings_eq (avail sel : List Course) :
    (calculateScheduleScore avail sel).warnings =
      creditWarnings (totalCredits sel) ++ labWarnings (labCount sel)
        ++ quantWarnings (quantCount sel)
        ++ diffWarnings (avgDifficulty sel) := by
  unfold calculateScheduleScore
  simp [applyCreditRule_eq, applyLabRule_eq, applyQuantRule_eq,
    applyDifficultyRule_eq]

theorem scheduleScore_rationale_eq (avail sel : List Course) :
    (calculateScheduleScore avail sel).rationale =
      (if (calculateScheduleScore avail sel).score ≥ 80 then
        "Well-balanced schedule"
      else if (calculateScheduleScore avail sel).score ≥ 60 then
        "Moderately challenging schedule"
      else "Consider adjusting for better balance") := rfl

theorem scheduleScore_swaps_eq (avail sel : List Course) :
    (calculateScheduleScore avail sel).suggestedSwaps =
      suggestionsFor avail sel (avgDifficulty sel) := rfl

/-- Claim C2: for the empty course set the scorer returns a score of
exactly 100 with zero warnings, and the mean-difficulty metric is defined
as 0 rather than failing with a division-by-zero error. -/
theorem empty_schedule_perfect_score (avail : List Course) :
    (calculateScheduleScore avail []).score = 100
    ∧ (calculateScheduleScore avail []).warnings = []
    ∧ avgDifficulty [] = 0 := by
  have hd : avgDifficulty [] = 0 := by simp [avgDifficulty]
  refine ⟨?_, ?_, hd⟩
  · rw [scheduleScore_score_eq]
    have h1 : specCreditPenalty (totalCredits []) = 0 := by
      simp [totalCredits, specCreditPenalty]
    have h2 : specLabPenalty (labCount []) = 0 := by
      simp [labCount, specLabPenalty]
    have h3 : specQuantPenalty (quantCount []) = 0 := by
      simp [quantCount, specQuantPenalty]
    have h4 : specDifficultyPenalty (avgDifficulty []) = 0 := by
      rw [hd]; norm_num [specDifficultyPenalty]
    rw [h1, h2, h3, h4]
    norm_num
  · rw [scheduleScore_warnings_eq]
    rw [hd]
    norm_num [totalCredits, labCount, quantCount, creditWarnings,
      labWarnings, quantWarnings, diffWarnings]

/-- Claim C9: for every input the final score lies in [0, 100] and the
rationale label is an exhaustive partition of the score with no gaps or
overlaps: well-balanced exactly when the score is at least 80, moderately
challenging exactly when it lies in [60, 79], consider adjusting exactly
when it is below 60. -/
theorem score_clamped_rationale_partition (avail sel : List Course) :
    0 ≤ (calculateScheduleScore avail sel).score
    ∧ (calculateScheduleScore avail sel).score ≤ 100
    ∧ ((calculateScheduleScore avail sel).rationale = "Well-balanced schedule"
        ↔ 80 ≤ (calculateScheduleScore avail sel).score)
    ∧ ((calculateScheduleScore avail sel).rationale =
          "Moderately challenging schedule"
        ↔ (60 ≤ (calculateScheduleScore avail sel).score
            ∧ (calculateScheduleScore avail sel).score ≤ 79))
    ∧ ((calculateScheduleScore avail sel).rationale =
          "Consider adjusting for better balance"
        ↔ (calculateScheduleScore avail sel).score < 60) := by
  obtain ⟨h1, h2⟩ := specCreditPenalty_range (totalCredits sel)
  obtain ⟨h3, h4⟩ := specLabPenalty_range (labCount sel)
  obtain ⟨h5, h6⟩ := specQuantPenalty_range (quantCount sel)
  obtain ⟨h7, h8⟩ := specDifficultyPenalty_range (avgDifficulty sel)
  have hs := scheduleScore_score_eq avail sel
  have hr := scheduleScore_rationale_eq avail sel
  refine ⟨by omega, by omega, ?_, ?_, ?_⟩ <;>
    rw [hr] <;> split_ifs with ha hb <;>
    simp only [String.reduceEq, false_iff, true_iff, iff_false, iff_true] <;>
    omega

/-- Claim C8: for every course set the scorer deducts 15 points and emits
a warning when the number of lab courses exceeds 2, and independently
deducts 15 points and emits a warning when the number of MATH/STAT courses
exceeds 2. -/
theorem lab_and_quant_penalties (avail sel : List Course) :
    (labWarning ∈ (calculateScheduleScore avail sel).warnings
      ↔ labCount sel > 2)
    ∧ (quantWarning ∈ (calculateScheduleScore avail sel).warnings
      ↔ quantCount sel > 2)
    ∧ (calculateScheduleScore avail sel).score =
        100 - specCreditPenalty (totalCredits sel)
          - (if labCount sel > 2 then 15 else 0)
          - (if quantCount sel > 2 then 15 else 0)
          - specDifficultyPenalty (avgDifficulty sel) := by
  have hw := scheduleScore_warnings_eq avail sel
  have hs := scheduleScore_score_eq avail sel
  refine ⟨?_, ?_, ?_⟩
  · rw [hw]
    unfold creditWarnings labWarnings quantWarnings diffWarnings
    split_ifs <;> simp_all [labWarning, quantWarning, creditOverloadWarning,
      highCreditWarning, difficultyWarning]
  · rw [hw]
    unfold creditWarnings labWarnings quantWarnings diffWarnings
    split_ifs <;> simp_all [labWarning, quantWarning, creditOverloadWarning,
      highCreditWarning, difficultyWarning]
  · rw [hs]
    unfold specLabPenalty specQuantPenalty
    rfl

/-- Claim C7: all else equal (same lab count, quantitative count and mean
difficulty), a 19-credit schedule scores strictly lower than an 18-credit
schedule. -/
theorem overload_strictly_monotonic (avail1 avail2 cs1 cs2 : List Course)
    (h18 : totalCredits cs1 = 18) (h19 : totalCredits cs2 = 19)
    (hlab : labCount cs1 = labCount cs2)
    (hquant : quantCount cs1 = quantCount cs2)
    (hdiff : avgDifficulty cs1 = avgDifficulty cs2) :
    (calculateScheduleScore avail2 cs2).score
      < (calculateScheduleScore avail1 cs1).score := by
  have hs1 := scheduleScore_score_eq avail1 cs1
  have hs2 := scheduleScore_score_eq avail2 cs2
  rw [h18] at hs1
  rw [h19] at hs2
  rw [hlab, hquant, hdiff] at hs1
  have hc1 : specCreditPenalty 18 = 5 := by norm_num [specCreditPenalty]
  have hc2 : specCreditPenalty 19 = 20 := by norm_num [specCreditPenalty]
  omega

/-- Claim C1 counterexample: a concrete five-course, 21-credit schedule of
mean difficulty 0.75 with no labs and no quantitative courses scores
exactly 60, and the code returns the rationale label for the moderate tier,
not the consider-adjusting one claimed (the consider-adjusting tier starts
strictly below 60). -/
theorem overload_example_rationale_counterexample :
    overloadSchedule.length = 5
    ∧ totalCredits overloadSchedule = 21
    ∧ avgDifficulty overloadSchedule = 3/4
    ∧ labCount overloadSchedule ≤ 2
    ∧ quantCount overloadSchedule ≤ 2
    ∧ (calculateScheduleScore [] overloadSchedule).score = 60
    ∧ (calculateScheduleScore [] overloadSchedule).rationale =
        "Moderately challenging schedule"
    ∧ (calculateScheduleScore [] overloadSchedule).rationale ≠
        "Consider adjusting for better balance" := by
  have hd : avgDifficulty overloadSchedule = 3/4 := by
    norm_num [avgDifficulty, difficultySum, overloadSchedule, mkCourse]
  have hscore : (calculateScheduleScore [] overloadSchedule).score = 60 := by
    have h1 : totalCredits overloadSchedule = 21 := by decide
    have h2 : specLabPenalty (labCount overloadSchedule) = 0 := by decide
    have h3 : specQuantPenalty (quantCount overloadSchedule) = 0 := by decide
    rw [scheduleScore_score_eq, hd, h1, h2, h3]
    norm_num [specCreditPenalty, specDifficultyPenalty]
  have hrat : (calculateScheduleScore [] overloadSchedule).rationale =
      "Moderately challenging schedule" := by
    rw [scheduleScore_rationale_eq, hscore]
    norm_num
  refine ⟨by decide, by decide, hd, by decide, by decide, hscore, hrat, ?_⟩
  rw [hrat]
  decide

/-- Claim C1 amended: every five-course schedule totalling 21 credits with
mean difficulty 0.75, at most 2 labs and at most 2 quantitative courses
receives both the credit-overload warning and the high-difficulty warning,
scores exactly 60 (hence at most 60) with at least two warnings, and gets
the rationale label "Moderately challenging schedule". -/
theorem overload_example_score_sixty (avail sel : List Course)
    (hlen : sel.length = 5) (hcr : totalCredits sel = 21)
    (hdiff : avgDifficulty sel = 3/4)
    (hlab : labCount sel ≤ 2) (hquant : quantCount sel ≤ 2) :
    (calculateScheduleScore avail sel).score = 60
    ∧ creditOverloadWarning ∈ (calculateScheduleScore avail sel).warnings
    ∧ difficultyWarning ∈ (calculateScheduleScore avail sel).warnings
    ∧ 2 ≤ (calculateScheduleScore avail sel).warnings.length
    ∧ (calculateScheduleScore avail sel).rationale =
        "Moderately challenging schedule" := by
  have hlp : specLabPenalty (labCount sel) = 0 := by
    unfold specLabPenalty; split_ifs <;> omega
  have hqp : specQuantPenalty (quantCount sel) = 0 := by
    unfold specQuantPenalty; split_ifs <;> omega
  have hscore : (calculateScheduleScore avail sel).score = 60 := by
    rw [scheduleScore_score_eq, hcr, hdiff, hlp, hqp]
    norm_num [specCreditPenalty, specDifficultyPenalty]
  have hw : (calculateScheduleScore avail sel).warnings =
      [creditOverloadWarning, difficultyWarning] := by
    rw [scheduleScore_warnings_eq, hcr, hdiff]
    have hlw : labWarnings (labCount sel) = [] := by
      unfold labWarnings; split_ifs <;> first | rfl | omega
    have hqw : quantWarnings (quantCount sel) = [] := by
      unfold quantWarnings; split_ifs <;> first | rfl | omega
    rw [hlw, hqw]
    norm_num [creditWarnings, diffWarnings]
  refine ⟨hscore, ?_, ?_, ?_, ?_⟩
  · rw [hw]; simp
  · rw [hw]; simp
  · rw [hw]; simp
  · rw [scheduleScore_rationale_eq, hscore]; norm_num

/-- Claim C1 witness: the amended theorem instantiated at the concrete
21-credit schedule. -/
theorem overload_example_score_sixty_witness :
    (calculateScheduleScore [] overloadSchedule).score = 60
    ∧ creditOverloadWarning ∈
        (calculateScheduleScore [] overloadSchedule).warnings
    ∧ difficultyWarning ∈
        (calculateScheduleScore [] overloadSchedule).warnings
    ∧ 2 ≤ (calculateScheduleScore [] overloadSchedule).warnings.length
    ∧ (calculateScheduleScore [] overloadSchedule).rationale =
        "Moderately challenging schedule" :=
  overload_example_score_sixty [] overloadSchedule (by decide) (by decide)
    (by norm_num [avgDifficulty, difficultySum, overloadSchedule, mkCourse])
    (by decide) (by decide)

/-- Claim C3 counterexample: a 3-credit schedule (below 12 credits) yields
an empty warning list — the advisory note claimed for sub-12-credit
schedules is never emitted by the code. -/
theorem no_parttime_advisory_counterexample :
    totalCredits partTimeSchedule = 3
    ∧ totalCredits partTimeSchedule < 12
    ∧ (calculateScheduleScore [] partTimeSchedule).warnings = [] := by
  have hd : avgDifficulty partTimeSchedule = 0 := by
    norm_num [avgDifficulty, difficultySum, partTimeSchedule, mkCourse]
  refine ⟨by decide, by decide, ?_⟩
  rw [scheduleScore_warnings_eq, hd]
  have h1 : creditWarnings (totalCredits partTimeSchedule) = [] := by decide
  have h2 : labWarnings (labCount partTimeSchedule) = [] := by decide
  have h3 : quantWarnings (quantCount partTimeSchedule) = [] := by decide
  rw [h1, h2, h3]
  norm_num [diffWarnings]

/-- Claim C3 amended: the scorer deducts exactly 20 points when total
credits exceed 18, exactly 5 when they exceed 15 but not 18, and nothing
at 15 or below; no credit-related advisory is emitted at 15 credits or
below (in particular none below 12 — only lab, quantitative or difficulty
warnings can appear there). -/
theorem credit_penalty_tiers (avail sel : List Course) :
    (calculateScheduleScore avail sel).score =
      100 - (if totalCredits sel > 18 then 20
              else if totalCredits sel > 15 then 5 else 0)
        - specLabPenalty (labCount sel) - specQuantPenalty (quantCount sel)
        - specDifficultyPenalty (avgDifficulty sel)
    ∧ (totalCredits sel ≤ 15 →
        ∀ w ∈ (calculateScheduleScore avail sel).warnings,
          w = labWarning ∨ w = quantWarning ∨ w = difficultyWarning) := by
  constructor
  · rw [scheduleScore_score_eq]; rfl
  · intro hle w hw
    rw [scheduleScore_warnings_eq] at hw
    have hcw : creditWarnings (totalCredits sel) = [] := by
      unfold creditWarnings; split_ifs <;> first | rfl | omega
    rw [hcw] at hw
    unfold labWarnings quantWarnings diffWarnings at hw
    split_ifs at hw <;> simp_all <;> tauto

/-- Claim C3 witness: the amended theorem instantiated at the 3-credit
schedule. -/
theorem credit_penalty_tiers_witness :
    totalCredits partTimeSchedule ≤ 15
    ∧ ∀ w ∈ (calculateScheduleScore [] partTimeSchedule).warnings,
        w = labWarning ∨ w = quantWarning ∨ w = difficultyWarning :=
  ⟨by decide, (credit_penalty_tiers [] partTimeSchedule).2 (by decide)⟩

/-- Claim C4: for every non-empty course set the scorer deducts exactly 20
points when the mean difficulty exceeds 0.7, and otherwise exactly 10
points when it exceeds 0.6, on the 0.0-1.0 difficulty scale. -/
theorem difficulty_penalty_tiers (avail sel : List Course)
    (hne : sel ≠ []) :
    (calculateScheduleScore avail sel).score =
      100 - specCreditPenalty (totalCredits sel)
        - specLabPenalty (labCount sel) - specQuantPenalty (quantCount sel)
        - (if avgDifficulty sel > 7/10 then 20
            else if avgDifficulty sel > 6/10 then 10 else 0) := by
  rw [scheduleScore_score_eq]; rfl

/-- Claim C4 witness: the theorem instantiated at a non-empty concrete
schedule of mean difficulty 0.8. -/
theorem difficulty_penalty_tiers_witness :
    hardSchedule ≠ []
    ∧ (calculateScheduleScore [] hardSchedule).score =
        100 - specCreditPenalty (totalCredits hardSchedule)
          - specLabPenalty (labCount hardSchedule)
          - specQuantPenalty (quantCount hardSchedule)
          - (if avgDifficulty hardSchedule > 7/10 then 20
              else if avgDifficulty hardSchedule > 6/10 then 10 else 0) :=
  ⟨by simp [hardSchedule], difficulty_penalty_tiers [] hardSchedule
    (by simp [hardSchedule])⟩

/-- Claim C5 counterexample: two schedules with the same course codes but
different hardest courses (first HARD 400, then MED 300) produce the same
suggestion string, which names only the easier candidate — the suggestion
does not identify or depend on the hardest selected course, contrary to
the claim that it proposes substituting for the hardest selected
course. -/
theorem swap_suggestion_counterexample :
    swapScheduleA.map Course.code = swapScheduleB.map Course.code
    ∧ (swapScheduleA.filter
        (fun c => decide ((9:ℚ)/10 ≤ c.difficultyIndex))).map Course.code =
        ["HARD 400"]
    ∧ (swapScheduleB.filter
        (fun c => decide ((9:ℚ)/10 ≤ c.difficultyIndex))).map Course.code =
        ["MED 300"]
    ∧ avgDifficulty swapScheduleA > 7/10
    ∧ avgDifficulty swapScheduleB > 7/10
    ∧ (calculateScheduleScore swapAvailable swapScheduleA).suggestedSwaps =
        ["Consider replacing a difficult course with EASY 101"]
    ∧ (calculateScheduleScore swapAvailable swapScheduleB).suggestedSwaps =
        ["Consider replacing a difficult course with EASY 101"] := by
  have hdA : avgDifficulty swapScheduleA = 17/20 := by
    norm_num [avgDifficulty, difficultySum, swapScheduleA, mkCourse]
  have hdB : avgDifficulty swapScheduleB = 17/20 := by
    norm_num [avgDifficulty, difficultySum, swapScheduleB, mkCourse]
  refine ⟨rfl, ?_, ?_, ?_, ?_, ?_, ?_⟩
  · norm_num [swapScheduleA, mkCourse, List.filter]
  · norm_num [swapScheduleB, mkCourse, List.filter]
  · rw [hdA]; norm_num
  · rw [hdB]; norm_num
  · rw [scheduleScore_swaps_eq, hdA]
    norm_num [suggestionsFor, swapAvailable, swapScheduleA, mkCourse,
      List.filter]
    decide
  · rw [scheduleScore_swaps_eq, hdB]
    norm_num [suggestionsFor, swapAvailable, swapScheduleB, mkCourse,
      List.filter]
    decide

/-- Claim C5 amended: a suggested swap is emitted only when mean
difficulty exceeds 0.7; any emitted suggestion names a candidate from the
available set with difficulty below 0.5 that is not already selected,
proposing generically to replace a difficult course (without identifying
the hardest selected course); when no such candidate exists, no suggestion
is emitted. -/
theorem swap_suggestion_policy (avail sel : List Course) :
    (avgDifficulty sel ≤ 7/10 →
      (calculateScheduleScore avail sel).suggestedSwaps = [])
    ∧ ((calculateScheduleScore avail sel).suggestedSwaps = []
        ∨ ∃ e ∈ avail, e.difficultyIndex < 1/2
            ∧ (∀ sc ∈ sel, sc.code ≠ e.code)
            ∧ (calculateScheduleScore avail sel).suggestedSwaps =
                ["Consider replacing a difficult course with " ++ e.code])
    ∧ ((∀ e ∈ avail, e.difficultyIndex < 1/2 → ∃ sc ∈ sel, sc.code = e.code) →
        (calculateScheduleScore avail sel).suggestedSwaps = []) := by
  rw [scheduleScore_swaps_eq]
  refine ⟨?_, ?_, ?_⟩
  · intro hle
    unfold suggestionsFor
    rw [if_neg (not_lt.mpr hle)]
  · by_cases hgt : avgDifficulty sel > 7/10
    · unfold suggestionsFor
      rw [if_pos hgt]
      cases hfil : avail.filter
          (fun c => decide (c.difficultyIndex < 1/2)
            && !(sel.any (fun sc => sc.code == c.code))) with
      | nil => exact Or.inl rfl
      | cons e es =>
        right
        have hmem : e ∈ avail.filter
            (fun c => decide (c.difficultyIndex < 1/2)
              && !(sel.any (fun sc => sc.code == c.code))) := by
          rw [hfil]; exact List.mem_cons_self _ _
        rw [List.mem_filter] at hmem
        obtain ⟨hav, hp⟩ := hmem
        rw [Bool.and_eq_true, decide_eq_true_eq, Bool.not_eq_true'] at hp
        obtain ⟨hlt, hnone⟩ := hp
        refine ⟨e, hav, hlt, ?_, rfl⟩
        intro sc hsc
        have := List.any_eq_false.mp hnone sc hsc
        simpa using this
    · exact Or.inl (by unfold suggestionsFor; rw [if_neg hgt])
  · intro hall
    unfold suggestionsFor
    by_cases hgt : avgDifficulty sel > 7/10
    · rw [if_pos hgt]
      have hfil : avail.filter
          (fun c => decide (c.difficultyIndex < 1/2)
            && !(sel.any (fun sc => sc.code == c.code))) = [] := by
        rw [List.filter_eq_nil_iff]
        intro e hav
        by_cases hlt : e.difficultyIndex < 1/2
        · obtain ⟨sc, hsc, hcode⟩ := hall e hav hlt
          have hany : sel.any (fun x => x.code == e.code) = true := by
            rw [List.any_eq_true]
            exact ⟨sc, hsc, by simp [hcode]⟩
          simp [hany]
        · simp [decide_eq_false hlt]
          intro hlt2
          exact absurd hlt2 (by rwa [one_div] at hlt)
      rw [hfil]
    · rw [if_neg hgt]

/-- Any successful walk emits a duplicate-free chain. -/
theorem visitCodes_ok_nodup (cat : Catalog) :
    ∀ fuel path acc codes out,
      visitCodes cat fuel path acc codes = .ok out → acc.Nodup → out.Nodup := by
  intro fuel
  induction fuel with
  | zero =>
    intro path acc codes out h ha
    cases codes with
    | nil =>
      simp only [visitCodes] at h
      cases h
      exact ha
    | cons c cs => simp [visitCodes] at h
  | succ n ih =>
    intro path acc codes out h ha
    cases codes with
    | nil =>
      simp only [visitCodes] at h
      cases h
      exact ha
    | cons c cs =>
      rw [visitCodes] at h
      by_cases hp : c ∈ path
      · rw [if_pos hp] at h
        cases h
      · rw [if_neg hp] at h
        by_cases hacc : c ∈ acc
        · rw [if_pos hacc] at h
          exact ih _ _ _ _ h ha
        · rw [if_neg hacc] at h
          cases hlook : List.lookup c cat with
          | none =>
            rw [hlook] at h
            exact ih _ _ _ _ h ha
          | some expr =>
            rw [hlook] at h
            dsimp only at h
            cases hrec : visitCodes cat n (c :: path) (acc ++ [c])
                (courseRefs expr) with
            | error e =>
              rw [hrec] at h
              cases h
            | ok acc2 =>
              rw [hrec] at h
              have hacc2 : acc2.Nodup := by
                refine ih _ _ _ _ hrec ?_
                rw [List.nodup_append]
                exact ⟨ha, List.nodup_singleton _,
                  by simp [List.disjoint_singleton, hacc]⟩
              exact ih _ _ _ _ h hacc2

/-- Claim C6: every successful transitive chain lists each reachable
prerequisite course at most once, and on the catalog where A requires B
and B requires A the chain computation fails with a
MalformedPrerequisiteGraph error identifying the repeated course code
(and, being a total function, never loops forever). -/
theorem transitive_chain_nodup_and_cycle_error :
    (∀ (code : String) (cat : Catalog) (out : List String),
      transitive_chain code cat = .ok out → out.Nodup)
    ∧ transitive_chain "A" cycleCatalog =
        .error (.malformedPrerequisiteGraph "A") := by
  constructor
  · intro code cat out h
    unfold transitive_chain at h
    cases hlook : List.lookup code cat with
    | none =>
      rw [hlook] at h
      cases h
      exact List.nodup_nil
    | some expr =>
      rw [hlook] at h
      exact visitCodes_ok_nodup cat _ _ _ _ _ h List.nodup_nil
  · rfl

/-- Claim C6 witness: the duplicate-freedom half instantiated at a
concrete acyclic catalog. -/
theorem transitive_chain_nodup_witness :
    transitive_chain "A" okCatalog = .ok ["B", "C"]
    ∧ (["B", "C"] : List String).Nodup :=
  ⟨rfl, transitive_chain_nodup_and_cycle_error.1 "A" okCatalog ["B", "C"] rfl⟩

/-- Claim C10: uniqueness of selected course codes is an invariant of the
schedule builder — addCourse preserves it and leaves the list unchanged
when a course with the same code is already selected, and removeCourse
preserves it and removes exactly the entries whose code equals the given
code. -/
theorem builder_unique_codes_invariant (l : List Course) (c : Course)
    (s : String) (h : uniqueCodes l) :
    uniqueCodes (addCourse l c)
    ∧ uniqueCodes (removeCourse l s)
    ∧ ((∃ x ∈ l, x.code = c.code) → addCourse l c = l)
    ∧ (∀ x ∈ removeCourse l s, x.code ≠ s)
    ∧ (∀ x ∈ l, x.code ≠ s → x ∈ removeCourse l s) := by
  refine ⟨?_, ?_, ?_, ?_, ?_⟩
  · unfold addCourse
    by_cases hany : l.any (fun x => x.code == c.code)
    · rw [if_pos hany]
      exact h
    · rw [if_neg hany]
      unfold uniqueCodes at h ⊢
      rw [List.map_append, List.nodup_append]
      refine ⟨h, by simp, ?_⟩
      simp only [List.any_eq_true, not_exists, not_and] at hany
      simp only [List.map_cons, List.map_nil, List.disjoint_singleton]
      simp only [List.mem_map, not_exists, not_and]
      intro x hx
      have := hany x hx
      simpa using this
  · unfold removeCourse uniqueCodes
    exact List.Nodup.sublist
      ((List.filter_sublist l).map Course.code) h
  · intro hex
    obtain ⟨x, hx, hcode⟩ := hex
    unfold addCourse
    rw [if_pos]
    rw [List.any_eq_true]
    exact ⟨x, hx, by simp [hcode]⟩
  · intro x hx
    unfold removeCourse at hx
    rw [List.mem_filter] at hx
    simpa using hx.2
  · intro x hx hne
    unfold removeCourse
    rw [List.mem_filter]
    exact ⟨hx, by simpa using hne⟩

/-- Claim C10 witness: the invariant theorem instantiated at concrete
one-course lists, including an addCourse call whose argument duplicates
the selected code. -/
theorem builder_unique_codes_witness :
    uniqueCodes (addCourse [sampleCourseA] sampleCourseB)
    ∧ uniqueCodes (removeCourse [sampleCourseA] "BUAD 203")
    ∧ addCourse [sampleCourseA] sampleCourseADup = [sampleCourseA] :=
  have h := builder_unique_codes_invariant [sampleCourseA] sampleCourseB
    "BUAD 203" (by decide)
  have h2 := builder_unique_codes_invariant [sampleCourseA] sampleCourseADup
    "BUAD 203" (by decide)
  ⟨h.1, h.2.1, h2.2.2.1 ⟨sampleCourseA, by simp, rfl⟩⟩

/-- Claim C5 witness: the amended theorem instantiated at a schedule of
mean difficulty 0.5, where no suggestion is emitted. -/
theorem swap_suggestion_policy_witness :
    avgDifficulty eighteenCreditSchedule ≤ 7/10
    ∧ (calculateScheduleScore [] eighteenCreditSchedule).suggestedSwaps = [] :=
  have hle : avgDifficulty eighteenCreditSchedule ≤ 7/10 := by
    norm_num [avgDifficulty, difficultySum, eighteenCreditSchedule, mkCourse]
  ⟨hle, (swap_suggestion_policy [] eighteenCreditSchedule).1 hle⟩

/-- Claim C7 witness. -/
theorem overload_strictly_monotonic_witness :
    (calculateScheduleScore [] nineteenCreditSchedule).score
      < (calculateScheduleScore [] eighteenCreditSchedule).score :=
  overload_strictly_monotonic [] [] eighteenCreditSchedule
    nineteenCreditSchedule (by decide) (by decide) (by decide) (by decide)
    (by norm_num [avgDifficulty, difficultySum, eighteenCreditSchedule,
      nineteenCreditSchedule, mkCourse])
